import Mathlib

/-
Verification of the nnpipe bloom post-processing pipeline (src/nnpipe.rs).

The pipeline builds five RGBA16F textures, a sampler, seven uniform buffers,
three bind group layouts, four bind groups and three render pipelines at
construction; `process` submits five command buffers (scene draw, brightness,
horizontal blur, vertical blur, composite) and then blocks on the device;
five setters update a cached scalar and write it to the matching uniform
buffer at offset 0.

The embedding models GPU objects by their descriptors and identities:
textures by their creation descriptor, views / buffers / samplers by
enumerated identities (each is created exactly once, at construction), bind
groups by (layout, entry list), and the command stream of `process` by an
explicit list of queue steps.  f32 scalars are modelled by `Float`; the code
performs no arithmetic on them, it only stores and copies them, so the model
is exact.  Uniform buffer contents are lists of f32 words; `write_buffer`
models `queue.write_buffer` at a word-aligned offset.
-/

inductive TextureFormat
  | rgba16Float
  deriving DecidableEq, Repr

structure TextureUsages where
  render_attachment : Bool
  texture_binding : Bool
  deriving DecidableEq, Repr

structure TextureDesc where
  width : Nat
  height : Nat
  sample_count : Nat
  format : TextureFormat
  usage : TextureUsages
  deriving DecidableEq, Repr

/-- `create_render_texture` from src/nnpipe.rs: width x height texture with
usage RENDER_ATTACHMENT | TEXTURE_BINDING, the given sample count, and
format Rgba16Float. -/
def create_render_texture (width height samples : Nat) : TextureDesc :=
  { width := width
    height := height
    sample_count := samples
    format := TextureFormat.rgba16Float
    usage := { render_attachment := true, texture_binding := true } }

inductive AddressMode
  | clampToEdge
  | repeatMode
  | mirrorRepeat
  deriving DecidableEq, Repr

inductive FilterMode
  | nearest
  | linear
  deriving DecidableEq, Repr

/-- Sampler descriptor as built in `Nnpipe::new`. -/
structure SamplerDesc where
  address_mode_u : AddressMode
  address_mode_v : AddressMode
  address_mode_w : AddressMode
  mag_filter : FilterMode
  min_filter : FilterMode
  mipmap_filter : FilterMode
  deriving DecidableEq, Repr

inductive ShaderStage
  | vertex
  | fragment
  | compute
  deriving DecidableEq, Repr

inductive SamplerBindingType
  | filtering
  | nonFiltering
  | comparison
  deriving DecidableEq, Repr

inductive TextureSampleType
  | float (filterable : Bool)
  | depth
  | sint
  | uint
  deriving DecidableEq, Repr

inductive TextureViewDimension
  | d1
  | d2
  | d3
  deriving DecidableEq, Repr

inductive BufferBindingType
  | uniform
  | storage
  deriving DecidableEq, Repr

/-- The `ty` of a `BindGroupLayoutEntry` (texture / sampler / buffer). -/
inductive BindingType
  | texture (sample_type : TextureSampleType) (view_dimension : TextureViewDimension)
      (multisampled : Bool)
  | sampler (ty : SamplerBindingType)
  | buffer (ty : BufferBindingType) (has_dynamic_offset : Bool)
  deriving DecidableEq, Repr

structure BindGroupLayoutEntry where
  binding : Nat
  visibility : List ShaderStage
  ty : BindingType
  deriving DecidableEq, Repr

/-- Identity of each texture view created by the pipeline, plus the
caller-supplied output view passed to `process` (a distinct object the
caller owns). -/
inductive ViewId
  | scene
  | brightness
  | blur_h
  | blur_v
  | composite
  | caller_output
  deriving DecidableEq, Repr

/-- Identity of each uniform buffer created in `Nnpipe::new`. -/
inductive BufferId
  | threshold
  | blur_h_dir
  | blur_v_dir
  | intensity
  | adaptive_scaling
  | max_radius
  | intensity_curve
  deriving DecidableEq, Repr

inductive SamplerId
  | bloom_sampler
  deriving DecidableEq, Repr

inductive BindingResource
  | textureView (v : ViewId)
  | sampler (s : SamplerId)
  | buffer (b : BufferId)
  deriving DecidableEq, Repr

structure BindGroupEntry where
  binding : Nat
  resource : BindingResource
  deriving DecidableEq, Repr

/-- A bind group: the layout it was created against and its concrete
resource entries. -/
structure BindGroup where
  layout : List BindGroupLayoutEntry
  entries : List BindGroupEntry
  deriving DecidableEq, Repr

inductive ShaderId
  | brightness
  | blur
  | compositeShader
  deriving DecidableEq, Repr

/-- Render pipeline descriptor: `create_render_pipeline` fixes the common
state (fullscreen-triangle entry points, RGBA16F alpha-blended target,
multisample count 1). -/
structure RenderPipelineDesc where
  layout : List BindGroupLayoutEntry
  shader : ShaderId
  vertex_entry : String
  fragment_entry : String
  target_format : TextureFormat
  blend_alpha : Bool
  multisample_count : Nat
  deriving DecidableEq, Repr

/-- `create_render_pipeline` from src/nnpipe.rs. -/
def create_render_pipeline (layout : List BindGroupLayoutEntry) (shader : ShaderId)
    (format : TextureFormat) : RenderPipelineDesc :=
  { layout := layout
    shader := shader
    vertex_entry := "vs_main"
    fragment_entry := "fs_main"
    target_format := format
    blend_alpha := true
    multisample_count := 1 }

/-- Brightness bind group layout (src/nnpipe.rs lines 158-192): bindings
0 texture, 1 filtering sampler, 2 uniform buffer, all fragment-visible. -/
def brightness_bind_group_layout : List BindGroupLayoutEntry :=
  [ { binding := 0, visibility := [ShaderStage.fragment]
      ty := BindingType.texture (TextureSampleType.float true) TextureViewDimension.d2 false }
  , { binding := 1, visibility := [ShaderStage.fragment]
      ty := BindingType.sampler SamplerBindingType.filtering }
  , { binding := 2, visibility := [ShaderStage.fragment]
      ty := BindingType.buffer BufferBindingType.uniform false } ]

/-- Blur bind group layout (src/nnpipe.rs lines 195-249): bindings 0 texture,
1 filtering sampler, 2-4 uniform buffers, all fragment-visible. -/
def blur_bind_group_layout : List BindGroupLayoutEntry :=
  [ { binding := 0, visibility := [ShaderStage.fragment]
      ty := BindingType.texture (TextureSampleType.float true) TextureViewDimension.d2 false }
  , { binding := 1, visibility := [ShaderStage.fragment]
      ty := BindingType.sampler SamplerBindingType.filtering }
  , { binding := 2, visibility := [ShaderStage.fragment]
      ty := BindingType.buffer BufferBindingType.uniform false }
  , { binding := 3, visibility := [ShaderStage.fragment]
      ty := BindingType.buffer BufferBindingType.uniform false }
  , { binding := 4, visibility := [ShaderStage.fragment]
      ty := BindingType.buffer BufferBindingType.uniform false } ]

/-- Composite bind group layout (src/nnpipe.rs lines 251-306): bindings
0-1 textures, 2 filtering sampler, 3-4 uniform buffers, fragment-visible. -/
def composite_bind_group_layout : List BindGroupLayoutEntry :=
  [ { binding := 0, visibility := [ShaderStage.fragment]
      ty := BindingType.texture (TextureSampleType.float true) TextureViewDimension.d2 false }
  , { binding := 1, visibility := [ShaderStage.fragment]
      ty := BindingType.texture (TextureSampleType.float true) TextureViewDimension.d2 false }
  , { binding := 2, visibility := [ShaderStage.fragment]
      ty := BindingType.sampler SamplerBindingType.filtering }
  , { binding := 3, visibility := [ShaderStage.fragment]
      ty := BindingType.buffer BufferBindingType.uniform false }
  , { binding := 4, visibility := [ShaderStage.fragment]
      ty := BindingType.buffer BufferBindingType.uniform false } ]

/-- Brightness bind group (src/nnpipe.rs lines 309-328). -/
def brightnessBindGroup : BindGroup :=
  { layout := brightness_bind_group_layout
    entries :=
      [ { binding := 0, resource := BindingResource.textureView ViewId.scene }
      , { binding := 1, resource := BindingResource.sampler SamplerId.bloom_sampler }
      , { binding := 2, resource := BindingResource.buffer BufferId.threshold } ] }

/-- Horizontal blur bind group (src/nnpipe.rs lines 330-361). -/
def blurHBindGroup : BindGroup :=
  { layout := blur_bind_group_layout
    entries :=
      [ { binding := 0, resource := BindingResource.textureView ViewId.brightness }
      , { binding := 1, resource := BindingResource.sampler SamplerId.bloom_sampler }
      , { binding := 2, resource := BindingResource.buffer BufferId.blur_h_dir }
      , { binding := 3, resource := BindingResource.buffer BufferId.adaptive_scaling }
      , { binding := 4, resource := BindingResource.buffer BufferId.max_radius } ] }

/-- Vertical blur bind group (src/nnpipe.rs lines 363-394). -/
def blurVBindGroup : BindGroup :=
  { layout := blur_bind_group_layout
    entries :=
      [ { binding := 0, resource := BindingResource.textureView ViewId.blur_h }
      , { binding := 1, resource := BindingResource.sampler SamplerId.bloom_sampler }
      , { binding := 2, resource := BindingResource.buffer BufferId.blur_v_dir }
      , { binding := 3, resource := BindingResource.buffer BufferId.adaptive_scaling }
      , { binding := 4, resource := BindingResource.buffer BufferId.max_radius } ] }

/-- Composite bind group (src/nnpipe.rs lines 396-425). -/
def compositeBindGroup : BindGroup :=
  { layout := composite_bind_group_layout
    entries :=
      [ { binding := 0, resource := BindingResource.textureView ViewId.scene }
      , { binding := 1, resource := BindingResource.textureView ViewId.blur_v }
      , { binding := 2, resource := BindingResource.sampler SamplerId.bloom_sampler }
      , { binding := 3, resource := BindingResource.buffer BufferId.intensity }
      , { binding := 4, resource := BindingResource.buffer BufferId.intensity_curve } ] }

/-- Brightness render pipeline (src/nnpipe.rs lines 449-455). -/
def brightnessPipeline : RenderPipelineDesc :=
  create_render_pipeline brightness_bind_group_layout ShaderId.brightness
    TextureFormat.rgba16Float

/-- Blur render pipeline, shared by both blur passes (lines 457-463). -/
def blurPipeline : RenderPipelineDesc :=
  create_render_pipeline blur_bind_group_layout ShaderId.blur TextureFormat.rgba16Float

/-- Composite render pipeline (src/nnpipe.rs lines 465-471). -/
def compositePipeline : RenderPipelineDesc :=
  create_render_pipeline composite_bind_group_layout ShaderId.compositeShader
    TextureFormat.rgba16Float

/-- The `Nnpipe` struct.  Buffer fields are modelled by the (word-level)
contents of the GPU buffer each handle refers to; view fields by the
identity of the view object. -/
structure Nnpipe where
  scene_texture : TextureDesc
  brightness_texture : TextureDesc
  blur_h_texture : TextureDesc
  blur_v_texture : TextureDesc
  composite_texture : TextureDesc
  scene_view : ViewId
  brightness_view : ViewId
  blur_h_view : ViewId
  blur_v_view : ViewId
  composite_view : ViewId
  brightness_pipeline : RenderPipelineDesc
  blur_pipeline : RenderPipelineDesc
  composite_pipeline : RenderPipelineDesc
  adaptive_blur_scaling : Float
  max_blur_radius : Float
  intensity_curve : Float
  brightness_threshold : Float
  bloom_intensity : Float
  brightness_bind_group : BindGroup
  blur_h_bind_group : BindGroup
  blur_v_bind_group : BindGroup
  composite_bind_group : BindGroup
  sampler : SamplerDesc
  threshold_buffer : List Float
  blur_h_buffer : List Float
  blur_v_buffer : List Float
  intensity_buffer : List Float
  adaptive_scaling_buffer : List Float
  max_radius_buffer : List Float
  intensity_curve_buffer : List Float

/-- `Nnpipe::new(device, width, height, samples)` (src/nnpipe.rs lines
59-509): builds the five textures, sampler, uniform buffers with their
default contents, bind groups and render pipelines. -/
def Nnpipe.new (width height samples : Nat) : Nnpipe :=
  { scene_texture := create_render_texture width height samples
    brightness_texture := create_render_texture width height 1
    blur_h_texture := create_render_texture width height 1
    blur_v_texture := create_render_texture width height 1
    composite_texture := create_render_texture width height 1
    scene_view := ViewId.scene
    brightness_view := ViewId.brightness
    blur_h_view := ViewId.blur_h
    blur_v_view := ViewId.blur_v
    composite_view := ViewId.composite
    brightness_pipeline := brightnessPipeline
    blur_pipeline := blurPipeline
    composite_pipeline := compositePipeline
    adaptive_blur_scaling := 5.0
    max_blur_radius := 40.0
    intensity_curve := 5.0
    brightness_threshold := 0.55
    bloom_intensity := 3.0
    brightness_bind_group := brightnessBindGroup
    blur_h_bind_group := blurHBindGroup
    blur_v_bind_group := blurVBindGroup
    composite_bind_group := compositeBindGroup
    sampler :=
      { address_mode_u := AddressMode.clampToEdge
        address_mode_v := AddressMode.clampToEdge
        address_mode_w := AddressMode.clampToEdge
        mag_filter := FilterMode.linear
        min_filter := FilterMode.linear
        mipmap_filter := FilterMode.linear }
    threshold_buffer := [0.55]
    blur_h_buffer := [1.0, 0.0]
    blur_v_buffer := [0.0, 0.7]
    intensity_buffer := [3.0]
    adaptive_scaling_buffer := [5.0]
    max_radius_buffer := [40.0]
    intensity_curve_buffer := [5.0] }

structure Color where
  r : Float
  g : Float
  b : Float
  a : Float

/-- `wgpu::Color::BLACK`: opaque black (0, 0, 0, 1). -/
def Color.black : Color := { r := 0.0, g := 0.0, b := 0.0, a := 1.0 }

inductive LoadOp
  | clear (c : Color)
  | load

/-- `pass.draw(vs..ve, is..ie)`. -/
structure DrawRange where
  vertex_start : Nat
  vertex_end : Nat
  instance_start : Nat
  instance_end : Nat
  deriving DecidableEq, Repr

/-- A command recorded into a command encoder: either the scene-draw
callback (`draw_renderer.encode_render_pass` into the given view) or a
post-processing render pass. -/
inductive Command
  | draw_callback (target : ViewId)
  | render_pass (target : ViewId) (load_op : LoadOp) (store : Bool)
      (pipeline : RenderPipelineDesc) (bind_group : BindGroup) (draw : DrawRange)

/-- One step on the queue: submitting a finished command buffer, or the
final blocking `device.poll(Maintain::Wait)`. -/
inductive QueueStep
  | submit (cb : List Command)
  | poll_wait

/-- The view a command renders into. -/
def Command.target : Command → ViewId
  | Command.draw_callback v => v
  | Command.render_pass v _ _ _ _ _ => v

/-- All render targets touched by a queue step. -/
def QueueStep.targets : QueueStep → List ViewId
  | QueueStep.submit cmds => cmds.map Command.target
  | QueueStep.poll_wait => []

/-- `Nnpipe::process` (src/nnpipe.rs lines 511-653): the ordered command
stream it submits to the queue.  `output_view` is the caller-supplied
`texture_view` argument. -/
def Nnpipe.process (p : Nnpipe) (output_view : ViewId) : List QueueStep :=
  [ QueueStep.submit [Command.draw_callback p.scene_view]
  , QueueStep.submit
      [Command.render_pass p.brightness_view (LoadOp.clear Color.black) true
        p.brightness_pipeline p.brightness_bind_group
        { vertex_start := 0, vertex_end := 3, instance_start := 0, instance_end := 1 }]
  , QueueStep.submit
      [Command.render_pass p.blur_h_view (LoadOp.clear Color.black) true
        p.blur_pipeline p.blur_h_bind_group
        { vertex_start := 0, vertex_end := 3, instance_start := 0, instance_end := 1 }]
  , QueueStep.submit
      [Command.render_pass p.blur_v_view (LoadOp.clear Color.black) true
        p.blur_pipeline p.blur_v_bind_group
        { vertex_start := 0, vertex_end := 3, instance_start := 0, instance_end := 1 }]
  , QueueStep.submit
      [Command.render_pass output_view (LoadOp.clear Color.black) true
        p.composite_pipeline p.composite_bind_group
        { vertex_start := 0, vertex_end := 3, instance_start := 0, instance_end := 1 }]
  , QueueStep.poll_wait ]

/-- `queue.write_buffer(buffer, offset, data)` at f32-word granularity:
overwrite `contents` from word `offset` with `data`, leaving the rest. -/
def write_buffer : List Float → Nat → List Float → List Float
  | [], _, _ => []
  | x :: xs, 0, data =>
    match data with
    | [] => x :: xs
    | d :: ds => d :: write_buffer xs 0 ds
  | x :: xs, n + 1, data => x :: write_buffer xs n data

/-- `set_brightness_threshold` (src/nnpipe.rs lines 657-664). -/
def Nnpipe.set_brightness_threshold (p : Nnpipe) (threshold : Float) : Nnpipe :=
  { p with
    brightness_threshold := threshold
    threshold_buffer := write_buffer p.threshold_buffer 0 [threshold] }

/-- `set_bloom_intensity` (src/nnpipe.rs lines 666-673). -/
def Nnpipe.set_bloom_intensity (p : Nnpipe) (intensity : Float) : Nnpipe :=
  { p with
    bloom_intensity := intensity
    intensity_buffer := write_buffer p.intensity_buffer 0 [intensity] }

/-- `set_adaptive_blur_scaling` (src/nnpipe.rs lines 675-682). -/
def Nnpipe.set_adaptive_blur_scaling (p : Nnpipe) (scaling : Float) : Nnpipe :=
  { p with
    adaptive_blur_scaling := scaling
    adaptive_scaling_buffer := write_buffer p.adaptive_scaling_buffer 0 [scaling] }

/-- `set_max_blur_radius` (src/nnpipe.rs lines 684-687). -/
def Nnpipe.set_max_blur_radius (p : Nnpipe) (radius : Float) : Nnpipe :=
  { p with
    max_blur_radius := radius
    max_radius_buffer := write_buffer p.max_radius_buffer 0 [radius] }

/-- `set_intensity_curve` (src/nnpipe.rs lines 689-696). -/
def Nnpipe.set_intensity_curve (p : Nnpipe) (curve : Float) : Nnpipe :=
  { p with
    intensity_curve := curve
    intensity_curve_buffer := write_buffer p.intensity_curve_buffer 0 [curve] }

/-- The five texture descriptors of a pipeline, in declaration order. -/
def Nnpipe.texture_state (p : Nnpipe) : List TextureDesc :=
  [p.scene_texture, p.brightness_texture, p.blur_h_texture, p.blur_v_texture,
   p.composite_texture]

/-- The four bind groups of a pipeline, in declaration order. -/
def Nnpipe.bind_groups (p : Nnpipe) : List BindGroup :=
  [p.brightness_bind_group, p.blur_h_bind_group, p.blur_v_bind_group,
   p.composite_bind_group]

/-- Modelled from the spec: the WebGPU texture-binding validation rule
(implemented in the external wgpu library, not in this repository): a
binding whose layout declares `multisampled = false` accepts only a view of
a texture with sample count 1, and a `multisampled = true` binding only a
sample count above 1. -/
def texture_binding_valid (layout_multisampled : Bool) (texture_samples : Nat) : Bool :=
  if layout_multisampled then decide (1 < texture_samples) else texture_samples == 1

/-- Writing no data leaves the buffer contents unchanged. -/
theorem write_buffer_nil (c : List Float) (n : Nat) : write_buffer c n [] = c := by
  induction c generalizing n with
  | nil => rfl
  | cons x xs ih =>
    cases n with
    | zero => rfl
    | succ m => simp only [write_buffer, ih]

/-- Writing the same single word at offset 0 twice equals writing it once. -/
theorem write_buffer_single_idem (c : List Float) (v : Float) :
    write_buffer (write_buffer c 0 [v]) 0 [v] = write_buffer c 0 [v] := by
  cases c with
  | nil => rfl
  | cons x xs => simp only [write_buffer, write_buffer_nil]

/-- C1: `process` submits exactly five command buffers in order — the
scene-draw callback into `scene_view`; the brightness pass clearing
`brightness_view` to opaque black with the brightness pipeline and bind
group, drawing vertices 0..3 and instances 0..1; the horizontal blur into
`blur_h_view`; the vertical blur into `blur_v_view`; the composite pass
into the caller's output view — and finally blocks polling the device. -/
theorem process_submission_order (w h s : Nat) :
    (Nnpipe.new w h s).process ViewId.caller_output =
      [ QueueStep.submit [Command.draw_callback ViewId.scene]
      , QueueStep.submit
          [Command.render_pass ViewId.brightness (LoadOp.clear Color.black) true
            brightnessPipeline brightnessBindGroup
            { vertex_start := 0, vertex_end := 3, instance_start := 0, instance_end := 1 }]
      , QueueStep.submit
          [Command.render_pass ViewId.blur_h (LoadOp.clear Color.black) true
            blurPipeline blurHBindGroup
            { vertex_start := 0, vertex_end := 3, instance_start := 0, instance_end := 1 }]
      , QueueStep.submit
          [Command.render_pass ViewId.blur_v (LoadOp.clear Color.black) true
            blurPipeline blurVBindGroup
            { vertex_start := 0, vertex_end := 3, instance_start := 0, instance_end := 1 }]
      , QueueStep.submit
          [Command.render_pass ViewId.caller_output (LoadOp.clear Color.black) true
            compositePipeline compositeBindGroup
            { vertex_start := 0, vertex_end := 3, instance_start := 0, instance_end := 1 }]
      , QueueStep.poll_wait ] := rfl

/-- C2: both blur passes set the very same blur pipeline, whose layout is
the shared blur bind group layout, which is also the layout of both blur
bind groups; the bind groups differ exactly at binding 0 (brightness view
versus horizontal-blur view) and binding 2 (horizontal versus vertical
direction buffer), while bindings 1, 3 and 4 are the same sampler,
adaptive-scaling buffer and max-radius buffer in both. -/
theorem blur_passes_share_pipeline (w h s : Nat) :
    ((Nnpipe.new w h s).process ViewId.caller_output).get? 2 =
      some (QueueStep.submit
        [Command.render_pass ViewId.blur_h (LoadOp.clear Color.black) true
          blurPipeline blurHBindGroup
          { vertex_start := 0, vertex_end := 3, instance_start := 0, instance_end := 1 }]) ∧
    ((Nnpipe.new w h s).process ViewId.caller_output).get? 3 =
      some (QueueStep.submit
        [Command.render_pass ViewId.blur_v (LoadOp.clear Color.black) true
          blurPipeline blurVBindGroup
          { vertex_start := 0, vertex_end := 3, instance_start := 0, instance_end := 1 }]) ∧
    blurPipeline.layout = blur_bind_group_layout ∧
    blurHBindGroup.layout = blur_bind_group_layout ∧
    blurVBindGroup.layout = blur_bind_group_layout ∧
    blurHBindGroup.entries =
      [ { binding := 0, resource := BindingResource.textureView ViewId.brightness }
      , { binding := 1, resource := BindingResource.sampler SamplerId.bloom_sampler }
      , { binding := 2, resource := BindingResource.buffer BufferId.blur_h_dir }
      , { binding := 3, resource := BindingResource.buffer BufferId.adaptive_scaling }
      , { binding := 4, resource := BindingResource.buffer BufferId.max_radius } ] ∧
    blurVBindGroup.entries =
      [ { binding := 0, resource := BindingResource.textureView ViewId.blur_h }
      , { binding := 1, resource := BindingResource.sampler SamplerId.bloom_sampler }
      , { binding := 2, resource := BindingResource.buffer BufferId.blur_v_dir }
      , { binding := 3, resource := BindingResource.buffer BufferId.adaptive_scaling }
      , { binding := 4, resource := BindingResource.buffer BufferId.max_radius } ] :=
  ⟨rfl, rfl, rfl, rfl, rfl, rfl, rfl⟩

/-- C3: each setter sets its cached field to `v`, writes the single word
`v` to its buffer at offset 0, and — shown by reverting exactly those two
fields and recovering the original state — changes nothing else: every
other field, buffer, texture, view and bind group is untouched and no bind
group is recreated. -/
theorem setters_update_only_their_field (p : Nnpipe) (v : Float) :
    ((p.set_brightness_threshold v).brightness_threshold = v ∧
     (p.set_brightness_threshold v).threshold_buffer =
       write_buffer p.threshold_buffer 0 [v] ∧
     { p.set_brightness_threshold v with
       brightness_threshold := p.brightness_threshold
       threshold_buffer := p.threshold_buffer } = p) ∧
    ((p.set_bloom_intensity v).bloom_intensity = v ∧
     (p.set_bloom_intensity v).intensity_buffer =
       write_buffer p.intensity_buffer 0 [v] ∧
     { p.set_bloom_intensity v with
       bloom_intensity := p.bloom_intensity
       intensity_buffer := p.intensity_buffer } = p) ∧
    ((p.set_adaptive_blur_scaling v).adaptive_blur_scaling = v ∧
     (p.set_adaptive_blur_scaling v).adaptive_scaling_buffer =
       write_buffer p.adaptive_scaling_buffer 0 [v] ∧
     { p.set_adaptive_blur_scaling v with
       adaptive_blur_scaling := p.adaptive_blur_scaling
       adaptive_scaling_buffer := p.adaptive_scaling_buffer } = p) ∧
    ((p.set_max_blur_radius v).max_blur_radius = v ∧
     (p.set_max_blur_radius v).max_radius_buffer =
       write_buffer p.max_radius_buffer 0 [v] ∧
     { p.set_max_blur_radius v with
       max_blur_radius := p.max_blur_radius
       max_radius_buffer := p.max_radius_buffer } = p) ∧
    ((p.set_intensity_curve v).intensity_curve = v ∧
     (p.set_intensity_curve v).intensity_curve_buffer =
       write_buffer p.intensity_curve_buffer 0 [v] ∧
     { p.set_intensity_curve v with
       intensity_curve := p.intensity_curve
       intensity_curve_buffer := p.intensity_curve_buffer } = p) ∧
    (p.set_brightness_threshold v).bind_groups = p.bind_groups ∧
    (p.set_bloom_intensity v).bind_groups = p.bind_groups ∧
    (p.set_adaptive_blur_scaling v).bind_groups = p.bind_groups ∧
    (p.set_max_blur_radius v).bind_groups = p.bind_groups ∧
    (p.set_intensity_curve v).bind_groups = p.bind_groups :=
  ⟨⟨rfl, rfl, rfl⟩, ⟨rfl, rfl, rfl⟩, ⟨rfl, rfl, rfl⟩, ⟨rfl, rfl, rfl⟩,
   ⟨rfl, rfl, rfl⟩, rfl, rfl, rfl, rfl, rfl⟩

/-- C4: the composite pass (fifth submission) renders into the
caller-supplied output view; the set of render targets touched by
`process` is exactly scene, brightness, blur_h, blur_v and the caller
output — `composite_view` is not among them — while the
composite texture/view pair is still allocated at construction. -/
theorem composite_pass_skips_composite_view (w h s : Nat) :
    ((Nnpipe.new w h s).process ViewId.caller_output).get? 4 =
      some (QueueStep.submit
        [Command.render_pass ViewId.caller_output (LoadOp.clear Color.black) true
          compositePipeline compositeBindGroup
          { vertex_start := 0, vertex_end := 3, instance_start := 0, instance_end := 1 }]) ∧
    ((Nnpipe.new w h s).process ViewId.caller_output).flatMap QueueStep.targets =
      [ViewId.scene, ViewId.brightness, ViewId.blur_h, ViewId.blur_v,
       ViewId.caller_output] ∧
    (Nnpipe.new w h s).composite_view = ViewId.composite ∧
    ViewId.composite ∉
      [ViewId.scene, ViewId.brightness, ViewId.blur_h, ViewId.blur_v,
       ViewId.caller_output] ∧
    (Nnpipe.new w h s).composite_texture = create_render_texture w h 1 :=
  ⟨rfl, rfl, rfl, by decide, rfl⟩

/-- C5: the scene texture takes the caller's sample count, while binding 0
of both the brightness layout and the composite layout — the bindings that
bind `scene_view` — declares a non-multisampled 2D float texture; under the
WebGPU validation rule such a binding is valid exactly when the sample
count is 1, so the configuration is invalid for `samples > 1`. -/
theorem scene_multisample_mismatch (w h s : Nat) :
    (Nnpipe.new w h s).scene_texture.sample_count = s ∧
    brightness_bind_group_layout.get? 0 =
      some { binding := 0, visibility := [ShaderStage.fragment]
             ty := BindingType.texture (TextureSampleType.float true)
               TextureViewDimension.d2 false } ∧
    composite_bind_group_layout.get? 0 =
      some { binding := 0, visibility := [ShaderStage.fragment]
             ty := BindingType.texture (TextureSampleType.float true)
               TextureViewDimension.d2 false } ∧
    brightnessBindGroup.entries.get? 0 =
      some { binding := 0, resource := BindingResource.textureView ViewId.scene } ∧
    compositeBindGroup.entries.get? 0 =
      some { binding := 0, resource := BindingResource.textureView ViewId.scene } ∧
    (Nnpipe.new w h s).scene_view = ViewId.scene ∧
    (texture_binding_valid false ((Nnpipe.new w h s).scene_texture.sample_count) = true
      ↔ s = 1) := by
  refine ⟨rfl, rfl, rfl, rfl, rfl, rfl, ?_⟩
  show texture_binding_valid false s = true ↔ s = 1
  simp [texture_binding_valid]

/-- C6: immediately after `new`, the cached parameters and the initial
uniform buffer contents are the defaults: threshold 0.55, horizontal blur
direction (1.0, 0.0), vertical blur direction (0.0, 0.7), intensity 3.0,
adaptive scaling 5.0, max radius 40.0, intensity curve 5.0. -/
theorem new_default_parameters (w h s : Nat) :
    (Nnpipe.new w h s).brightness_threshold = 0.55 ∧
    (Nnpipe.new w h s).threshold_buffer = [0.55] ∧
    (Nnpipe.new w h s).blur_h_buffer = [1.0, 0.0] ∧
    (Nnpipe.new w h s).blur_v_buffer = [0.0, 0.7] ∧
    (Nnpipe.new w h s).bloom_intensity = 3.0 ∧
    (Nnpipe.new w h s).intensity_buffer = [3.0] ∧
    (Nnpipe.new w h s).adaptive_blur_scaling = 5.0 ∧
    (Nnpipe.new w h s).adaptive_scaling_buffer = [5.0] ∧
    (Nnpipe.new w h s).max_blur_radius = 40.0 ∧
    (Nnpipe.new w h s).max_radius_buffer = [40.0] ∧
    (Nnpipe.new w h s).intensity_curve = 5.0 ∧
    (Nnpipe.new w h s).intensity_curve_buffer = [5.0] :=
  ⟨rfl, rfl, rfl, rfl, rfl, rfl, rfl, rfl, rfl, rfl, rfl, rfl⟩

/-- Spec wording of the brightness layout, for refinement against the
source: (0) 2D float texture, (1) filtering sampler, (2) uniform buffer,
all fragment-visible, non-dynamic. -/
def spec_brightness_layout : List BindGroupLayoutEntry :=
  [ { binding := 0, visibility := [ShaderStage.fragment]
      ty := BindingType.texture (TextureSampleType.float true) TextureViewDimension.d2 false }
  , { binding := 1, visibility := [ShaderStage.fragment]
      ty := BindingType.sampler SamplerBindingType.filtering }
  , { binding := 2, visibility := [ShaderStage.fragment]
      ty := BindingType.buffer BufferBindingType.uniform false } ]

/-- Spec wording of the blur layout: (0) 2D float texture, (1) filtering
sampler, (2) direction uniform, (3) adaptive-scaling uniform, (4)
max-radius uniform. -/
def spec_blur_layout : List BindGroupLayoutEntry :=
  [ { binding := 0, visibility := [ShaderStage.fragment]
      ty := BindingType.texture (TextureSampleType.float true) TextureViewDimension.d2 false }
  , { binding := 1, visibility := [ShaderStage.fragment]
      ty := BindingType.sampler SamplerBindingType.filtering }
  , { binding := 2, visibility := [ShaderStage.fragment]
      ty := BindingType.buffer BufferBindingType.uniform false }
  , { binding := 3, visibility := [ShaderStage.fragment]
      ty := BindingType.buffer BufferBindingType.uniform false }
  , { binding := 4, visibility := [ShaderStage.fragment]
      ty := BindingType.buffer BufferBindingType.uniform false } ]

/-- Spec wording of the composite layout: (0) scene 2D float texture, (1)
bloom 2D float texture, (2) filtering sampler, (3) intensity uniform, (4)
intensity-curve uniform. -/
def spec_composite_layout : List BindGroupLayoutEntry :=
  [ { binding := 0, visibility := [ShaderStage.fragment]
      ty := BindingType.texture (TextureSampleType.float true) TextureViewDimension.d2 false }
  , { binding := 1, visibility := [ShaderStage.fragment]
      ty := BindingType.texture (TextureSampleType.float true) TextureViewDimension.d2 false }
  , { binding := 2, visibility := [ShaderStage.fragment]
      ty := BindingType.sampler SamplerBindingType.filtering }
  , { binding := 3, visibility := [ShaderStage.fragment]
      ty := BindingType.buffer BufferBindingType.uniform false }
  , { binding := 4, visibility := [ShaderStage.fragment]
      ty := BindingType.buffer BufferBindingType.uniform false } ]

/-- C7: the three bind group layouts built at construction coincide with
the spec's layouts binding for binding (fragment-visible, filtering
samplers, non-dynamic uniform buffers), and they are the layouts the
pipeline actually carries. -/
theorem layouts_match_spec (w h s : Nat) :
    brightness_bind_group_layout = spec_brightness_layout ∧
    blur_bind_group_layout = spec_blur_layout ∧
    composite_bind_group_layout = spec_composite_layout ∧
    (Nnpipe.new w h s).brightness_bind_group.layout = spec_brightness_layout ∧
    (Nnpipe.new w h s).blur_h_bind_group.layout = spec_blur_layout ∧
    (Nnpipe.new w h s).blur_v_bind_group.layout = spec_blur_layout ∧
    (Nnpipe.new w h s).composite_bind_group.layout = spec_composite_layout :=
  ⟨rfl, rfl, rfl, rfl, rfl, rfl, rfl⟩

/-- C8: all five textures are width x height, RGBA16F, usable as render
attachment and texture binding; brightness, blur_h, blur_v and composite
have sample count 1 while scene has the caller's; and no setter ever
changes any texture descriptor (and `process` takes the pipeline immutably,
so textures keep identical dimensions for the pipeline's lifetime). -/
theorem textures_uniform_and_stable (w h s : Nat) (q : Nnpipe) (v : Float) :
    (Nnpipe.new w h s).texture_state =
      [ { width := w, height := h, sample_count := s
          format := TextureFormat.rgba16Float
          usage := { render_attachment := true, texture_binding := true } }
      , { width := w, height := h, sample_count := 1
          format := TextureFormat.rgba16Float
          usage := { render_attachment := true, texture_binding := true } }
      , { width := w, height := h, sample_count := 1
          format := TextureFormat.rgba16Float
          usage := { render_attachment := true, texture_binding := true } }
      , { width := w, height := h, sample_count := 1
          format := TextureFormat.rgba16Float
          usage := { render_attachment := true, texture_binding := true } }
      , { width := w, height := h, sample_count := 1
          format := TextureFormat.rgba16Float
          usage := { render_attachment := true, texture_binding := true } } ] ∧
    (q.set_brightness_threshold v).texture_state = q.texture_state ∧
    (q.set_bloom_intensity v).texture_state = q.texture_state ∧
    (q.set_adaptive_blur_scaling v).texture_state = q.texture_state ∧
    (q.set_max_blur_radius v).texture_state = q.texture_state ∧
    (q.set_intensity_curve v).texture_state = q.texture_state :=
  ⟨rfl, rfl, rfl, rfl, rfl, rfl⟩

/-- C9: every setter is idempotent — calling it twice with the same value
produces exactly the state (cached field and buffer contents included) of
a single call. -/
theorem setters_idempotent (p : Nnpipe) (v : Float) :
    (p.set_brightness_threshold v).set_brightness_threshold v =
      p.set_brightness_threshold v ∧
    (p.set_bloom_intensity v).set_bloom_intensity v = p.set_bloom_intensity v ∧
    (p.set_adaptive_blur_scaling v).set_adaptive_blur_scaling v =
      p.set_adaptive_blur_scaling v ∧
    (p.set_max_blur_radius v).set_max_blur_radius v = p.set_max_blur_radius v ∧
    (p.set_intensity_curve v).set_intensity_curve v = p.set_intensity_curve v := by
  refine ⟨?_, ?_, ?_, ?_, ?_⟩ <;>
    simp [Nnpipe.set_brightness_threshold, Nnpipe.set_bloom_intensity,
      Nnpipe.set_adaptive_blur_scaling, Nnpipe.set_max_blur_radius,
      Nnpipe.set_intensity_curve, write_buffer_single_idem]

/-- C10: every setter is total over f32 (any `Float`, NaN and negatives
included, is accepted) and stores the given value unmodified in the cached
field; in particular `set_max_blur_radius` writes the raw radius to the
buffer with no clamping. -/
theorem setters_accept_any_float (p : Nnpipe) (v : Float) :
    (p.set_brightness_threshold v).brightness_threshold = v ∧
    (p.set_bloom_intensity v).bloom_intensity = v ∧
    (p.set_adaptive_blur_scaling v).adaptive_blur_scaling = v ∧
    (p.set_max_blur_radius v).max_blur_radius = v ∧
    (p.set_intensity_curve v).intensity_curve = v ∧
    (p.set_max_blur_radius v).max_radius_buffer =
      write_buffer p.max_radius_buffer 0 [v] :=
  ⟨rfl, rfl, rfl, rfl, rfl, rfl⟩
